import Mathlib

/-!
Shallow embedding of `src/bindings/gumjs/gumv8platform.cpp` (the GumV8Platform
bridge between V8's platform contract and Gum's script scheduler).

Modelling conventions:
- Opaque pointers (bundles, isolates, tasks) are natural-number handles; a
  nullable pointer is an `Option`.
- Side effects (scheduler submissions, task runs, allocations/frees, V8 global
  calls, lock scopes) are recorded as an explicit trace of `Event`s, in the
  order the source performs them.
- `double` arithmetic is modelled by exact rationals (`ℚ`); `gint64` by `ℤ`
  with C truncating division (`Int.tdiv`).
- `gum_v8_bundle_new` returns a fresh handle drawn from a counter carried in
  the platform state, so "recompilation" is observable as a new handle and a
  new `compileBundle` event.
-/

namespace GumV8

/-- GLib's `G_PRIORITY_DEFAULT`. -/
def G_PRIORITY_DEFAULT : Int := 0

/-- The four fixed embedded module tables
(`gumjs_runtime_modules`, `gumjs_debug_modules`, `gumjs_objc_modules`,
`gumjs_java_modules`). -/
inductive ModuleTable where
  | runtime
  | debug
  | objc
  | java


/-- Handle standing for a `GumV8Bundle *` returned by `gum_v8_bundle_new`. -/
abbrev Bundle := Nat

/-- Handle standing for a non-null `v8::Isolate *`. -/
abbrev Isolate := Nat

/-- Handle standing for a `v8::Task *`. -/
abbrev Task := Nat

/-- Handle standing for a `v8::IdleTask *`. -/
abbrev IdleTask := Nat

/-- `v8::Platform::ExpectedRuntime`, the hint passed to
`CallOnBackgroundThread`. -/
inductive ExpectedRuntime where
  | kShortRunningTask
  | kLongRunningTask


/-- `GumV8TaskRequest<Task>`: ownership wrapper binding one task to an
optional target isolate (`nullptr` = no VM affinity). The non-owning
platform back-pointer is left implicit; handlers receive the platform
explicitly. -/
structure TaskRequest where
  isolate : Option Isolate
  task : Task


/-- `GumV8TaskRequest<IdleTask>`. -/
structure IdleTaskRequest where
  isolate : Option Isolate
  task : IdleTask


/-- The dispatch-handler function a submission names
(`HandleTaskRequest`, `HandleDelayedTaskRequest`, `HandleIdleTaskRequest`). -/
inductive Handler where
  | taskReq
  | delayedTaskReq
  | idleTaskReq


/-- One observable side effect performed by the platform code, in source
order. -/
inductive Event where
  | newScheduler
  | newAllocator
  | v8InitPlatform
  | v8Start
  | newIsolateWithAllocator
  | setFatalErrorHandler
  | lockEnter (i : Option Isolate)
  | lockExit (i : Option Isolate)
  | compileBundle (m : ModuleTable) (b : Bundle)
  | runTask (t : Task)
  | runIdleTask (t : IdleTask) (deadline : ℚ)
  | deleteTask (t : Task)
  | deleteRequest (r : TaskRequest)
  | deleteIdleRequest (r : IdleTaskRequest)
  | pushPoolJob (h : Handler) (r : TaskRequest)
  | pushJsJob (h : Handler) (priority : Int) (r : TaskRequest)
  | pushIdleJsJob (h : Handler) (priority : Int) (r : IdleTaskRequest)
  | attachTimeout (intervalMs : Nat) (priority : Int) (h : Handler) (r : TaskRequest)
  | freeBundle (b : Option Bundle)
  | setDisposing
  | disposeIsolate
  | v8Dispose
  | v8Shutdown
  | unrefScheduler
  | deleteAllocator


/-- The fields of `GumV8Platform`. `nextBundle` is the fresh-handle counter
used to model `gum_v8_bundle_new` allocations. -/
structure Platform where
  disposing : Bool
  objc_bundle : Option Bundle
  java_bundle : Option Bundle
  runtime_bundle : Option Bundle
  debug_bundle : Option Bundle
  isolate : Isolate
  start_time : Int
  nextBundle : Nat


/-- `gum_v8_bundle_new (isolate, modules)`: compiles a bundle, yielding a
fresh handle and a compile event. -/
def gum_v8_bundle_new (p : Platform) (m : ModuleTable) :
    Bundle × Platform × List Event :=
  (p.nextBundle, { p with nextBundle := p.nextBundle + 1 },
   [Event.compileBundle m p.nextBundle])

/-- `GumV8Platform::InitRuntime`: inside a transient isolate-lock scope,
compile the runtime and debug bundles and store them. -/
def InitRuntime (p : Platform) : Platform × List Event :=
  let r1 := gum_v8_bundle_new p ModuleTable.runtime
  let r2 := gum_v8_bundle_new r1.2.1 ModuleTable.debug
  ({ r2.2.1 with runtime_bundle := some r1.1, debug_bundle := some r2.1 },
   [Event.lockEnter (some p.isolate)] ++ r1.2.2 ++ r2.2.2
     ++ [Event.lockExit (some p.isolate)])

/-- `GumV8Platform::GumV8Platform`: `now` is the `g_get_monotonic_time`
reading taken in the initializer list (stored as `start_time`); `iso` is the
isolate handle returned by `Isolate::New`. Member initializers run first
(scheduler, allocator), then the body (V8 global init, isolate creation with
the allocator in its create-params, fatal-error handler, `InitRuntime`). -/
def construct (now : Int) (iso : Isolate) : Platform × List Event :=
  let p0 : Platform :=
    { disposing := false, objc_bundle := none, java_bundle := none,
      runtime_bundle := none, debug_bundle := none,
      isolate := iso, start_time := now, nextBundle := 0 }
  let r := InitRuntime p0
  (r.1,
   [Event.newScheduler, Event.newAllocator, Event.v8InitPlatform,
    Event.v8Start, Event.newIsolateWithAllocator, Event.setFatalErrorHandler]
     ++ r.2)

/-- `GumV8Platform::GetObjCBundle`: compile `gumjs_objc_modules` on first
call, cache, and return the cached bundle thereafter. -/
def GetObjCBundle (p : Platform) : Bundle × Platform × List Event :=
  match p.objc_bundle with
  | some b => (b, p, [])
  | none =>
      let r := gum_v8_bundle_new p ModuleTable.objc
      (r.1, { r.2.1 with objc_bundle := some r.1 }, r.2.2)

/-- `GumV8Platform::GetJavaBundle`: compile `gumjs_java_modules` on first
call, cache, and return the cached bundle thereafter. -/
def GetJavaBundle (p : Platform) : Bundle × Platform × List Event :=
  match p.java_bundle with
  | some b => (b, p, [])
  | none =>
      let r := gum_v8_bundle_new p ModuleTable.java
      (r.1, { r.2.1 with java_bundle := some r.1 }, r.2.2)

/-- `GumV8Platform::~GumV8Platform`: set `disposing`, then inside a lock
scope free `objc`/`java` bundles only when non-null and the `debug` and
`runtime` slots unconditionally; then dispose the isolate, shut down V8,
unref the scheduler and delete the allocator. -/
def destructor (p : Platform) : Platform × List Event :=
  let objcFrees : List Event :=
    match p.objc_bundle with
    | some b => [Event.freeBundle (some b)]
    | none => []
  let javaFrees : List Event :=
    match p.java_bundle with
    | some b => [Event.freeBundle (some b)]
    | none => []
  ({ p with disposing := true },
   [Event.setDisposing, Event.lockEnter (some p.isolate)]
     ++ objcFrees ++ javaFrees
     ++ [Event.freeBundle p.debug_bundle, Event.freeBundle p.runtime_bundle,
         Event.lockExit (some p.isolate), Event.disposeIsolate,
         Event.v8Dispose, Event.v8Shutdown, Event.unrefScheduler,
         Event.deleteAllocator])

/-- `GumV8Platform::CallOnBackgroundThread`: the `expected_runtime` hint is
discarded (`(void) expected_runtime`); when `disposing`, run the task
synchronously and delete it; otherwise wrap it in a request with no target
isolate and push it on the thread pool naming `HandleTaskRequest`. -/
def CallOnBackgroundThread (p : Platform) (task : Task)
    (expected_runtime : ExpectedRuntime) : Platform × List Event :=
  if p.disposing then
    (p, [Event.runTask task, Event.deleteTask task])
  else
    (p, [Event.pushPoolJob Handler.taskReq { isolate := none, task := task }])

/-- `GumV8Platform::CallOnForegroundThread`: `g_assert (!disposing)` aborts
the process (modelled as `none`) when `disposing`; otherwise push a request
targeting `for_isolate` on the JS thread at default priority. -/
def CallOnForegroundThread (p : Platform) (for_isolate : Isolate)
    (task : Task) : Option (Platform × List Event) :=
  if p.disposing then
    none
  else
    some (p, [Event.pushJsJob Handler.taskReq G_PRIORITY_DEFAULT
      { isolate := some for_isolate, task := task }])

/-- `GumV8Platform::CallDelayedOnForegroundThread`: `g_assert (!disposing)`;
otherwise create a timeout source with interval `delay_in_seconds * 1000.0`
truncated to a `guint` millisecond count, default priority, callback
`HandleDelayedTaskRequest`, attached to the scheduler's JS context. -/
def CallDelayedOnForegroundThread (p : Platform) (for_isolate : Isolate)
    (task : Task) (delay_in_seconds : ℚ) : Option (Platform × List Event) :=
  if p.disposing then
    none
  else
    some (p, [Event.attachTimeout ⌊delay_in_seconds * 1000⌋.toNat
      G_PRIORITY_DEFAULT Handler.delayedTaskReq
      { isolate := some for_isolate, task := task }])

/-- `GumV8Platform::CallIdleOnForegroundThread`: `g_assert (!disposing)`;
otherwise push an idle request targeting `for_isolate` on the JS thread at
default priority, naming `HandleIdleTaskRequest`. The submission carries no
deadline: the deadline is computed only inside the handler. -/
def CallIdleOnForegroundThread (p : Platform) (for_isolate : Isolate)
    (task : IdleTask) : Option (Platform × List Event) :=
  if p.disposing then
    none
  else
    some (p, [Event.pushIdleJsJob Handler.idleTaskReq G_PRIORITY_DEFAULT
      { isolate := some for_isolate, task := task }])

/-- `GumV8Platform::MonotonicallyIncreasingTime`: the microsecond delta from
`start_time`, divided by 1000 with C truncating integer division, then
divided by `1000.0` as a double (modelled exactly in ℚ). `now` is the
current `g_get_monotonic_time` reading. -/
def MonotonicallyIncreasingTime (p : Platform) (now : Int) : ℚ :=
  let delta : Int := now - p.start_time
  ((delta.tdiv 1000 : Int) : ℚ) / 1000

/-- `GumV8Platform::HandleTaskRequest`: with a target isolate, run the task
inside the isolate's lock scope then delete the request; with none, run and
delete without locking. -/
def HandleTaskRequest (request : TaskRequest) : List Event :=
  match request.isolate with
  | some iso =>
      [Event.lockEnter (some iso), Event.runTask request.task,
       Event.deleteRequest request, Event.lockExit (some iso)]
  | none =>
      [Event.runTask request.task, Event.deleteRequest request]

/-- `GumV8Platform::HandleDelayedTaskRequest`: forward to
`HandleTaskRequest`, then return `FALSE` to the timeout source so it never
fires again. -/
def HandleDelayedTaskRequest (request : TaskRequest) : Bool × List Event :=
  (false, HandleTaskRequest request)

/-- `GumV8Platform::HandleIdleTaskRequest`: lock the request's isolate,
compute the deadline at execution time as
`MonotonicallyIncreasingTime () + 1/60`, run the idle task with it, delete
the request. `now` is the `g_get_monotonic_time` reading at execution. -/
def HandleIdleTaskRequest (p : Platform) (now : Int)
    (request : IdleTaskRequest) : List Event :=
  let deadline_in_seconds : ℚ := MonotonicallyIncreasingTime p now + 1 / 60
  [Event.lockEnter request.isolate,
   Event.runIdleTask request.task deadline_in_seconds,
   Event.deleteIdleRequest request,
   Event.lockExit request.isolate]

/-- Recognizer for bundle-free events, used to talk about the frees a
teardown trace performs. -/
def Event.isFree : Event → Bool
  | Event.freeBundle _ => true
  | _ => false

/-- Whether an event submits work to the scheduler (thread pool, JS thread,
or a timer attached to the JS context). -/
def Event.isEnqueue : Event → Bool
  | Event.pushPoolJob _ _ => true
  | Event.pushJsJob _ _ _ => true
  | Event.pushIdleJsJob _ _ _ => true
  | Event.attachTimeout _ _ _ _ => true
  | _ => false

/-- Whether an event is a run of the given task (used to count how many
times a handler executes a task). -/
def Event.isRunOf (t : Task) : Event → Bool
  | Event.runTask u => u == t
  | _ => false

/-- Whether an event deallocates the given task request. -/
def Event.isDeleteOf (r : TaskRequest) : Event → Bool
  | Event.deleteRequest s => s.isolate == r.isolate && s.task == r.task
  | _ => false

/-- Truncating division of a nonnegative delta by 1000 is monotone. -/
theorem tdiv1000_mono {x y : Int} (hx : 0 ≤ x) (hxy : x ≤ y) :
    x.tdiv 1000 ≤ y.tdiv 1000 := by
  rw [Int.tdiv_eq_ediv hx (by norm_num),
    Int.tdiv_eq_ediv (le_trans hx hxy) (by norm_num)]
  exact Int.ediv_le_ediv (by norm_num) hxy

/-- `MonotonicallyIncreasingTime` is monotone in the host-clock reading,
once the reading is at or past the construction baseline. -/
theorem monotonic_time_mono (p : Platform) {t1 t2 : Int}
    (h1 : p.start_time ≤ t1) (h12 : t1 ≤ t2) :
    MonotonicallyIncreasingTime p t1 ≤ MonotonicallyIncreasingTime p t2 := by
  unfold MonotonicallyIncreasingTime
  have hx : (0 : Int) ≤ t1 - p.start_time := by omega
  have hxy : t1 - p.start_time ≤ t2 - p.start_time := by omega
  have h := tdiv1000_mono hx hxy
  exact div_le_div_of_nonneg_right (mod_cast h) (by norm_num)

/-- Claim C4: `MonotonicallyIncreasingTime` returns the elapsed time since
the `start_time` baseline fixed at construction, as seconds, computed by
truncating the microsecond delta to whole milliseconds (integer division by
1000) before dividing by 1000; readings at host-clock instants `t1 ≤ t2`
(at or after the baseline) never regress, and a reading taken immediately
after construction (within the same millisecond) is 0. -/
theorem monotonic_time_spec (p : Platform) (t1 t2 : Int)
    (h1 : p.start_time ≤ t1) (h12 : t1 ≤ t2) :
    MonotonicallyIncreasingTime p t2
      = (((t2 - p.start_time).tdiv 1000 : Int) : ℚ) / 1000 ∧
    MonotonicallyIncreasingTime p t1 ≤ MonotonicallyIncreasingTime p t2 ∧
    MonotonicallyIncreasingTime p p.start_time = 0 ∧
    (t1 - p.start_time < 1000 → MonotonicallyIncreasingTime p t1 = 0) ∧
    (∀ now iso, (construct now iso).1.start_time = now) := by
  refine ⟨rfl, monotonic_time_mono p h1 h12, ?_, ?_, fun now iso => rfl⟩
  · simp [MonotonicallyIncreasingTime, Int.tdiv]
  · intro hsmall
    have hz : (t1 - p.start_time).tdiv 1000 = 0 := by
      rw [Int.tdiv_eq_ediv (by omega) (by norm_num)]
      exact Int.ediv_eq_zero_of_lt (by omega) (by omega)
    simp [MonotonicallyIncreasingTime, hz]

/-- Witness for `monotonic_time_spec` at a concrete platform and instants. -/
theorem monotonic_time_spec_witness :
    MonotonicallyIncreasingTime (construct 0 7).1 4500
      ≤ MonotonicallyIncreasingTime (construct 0 7).1 12345 :=
  (monotonic_time_spec (construct 0 7).1 4500 12345 (by decide)
    (by decide)).2.1

/-- Claim C3: the deadline handed to an idle task is computed inside the
idle handler, at execution time, as the platform's monotonic reading at that
moment plus 1/60 s; hence for any submission instant at or before execution
(and at or after the clock baseline) the executed deadline is at least the
monotonic reading at submission. -/
theorem idle_deadline_spec (p : Platform) (req : IdleTaskRequest)
    (now_sub now_exec : Int) (hs : p.start_time ≤ now_sub)
    (hse : now_sub ≤ now_exec) :
    HandleIdleTaskRequest p now_exec req
      = [Event.lockEnter req.isolate,
         Event.runIdleTask req.task
           (MonotonicallyIncreasingTime p now_exec + 1 / 60),
         Event.deleteIdleRequest req, Event.lockExit req.isolate] ∧
    MonotonicallyIncreasingTime p now_sub
      ≤ MonotonicallyIncreasingTime p now_exec + 1 / 60 := by
  refine ⟨rfl, ?_⟩
  calc MonotonicallyIncreasingTime p now_sub
      ≤ MonotonicallyIncreasingTime p now_exec :=
        monotonic_time_mono p hs hse
    _ ≤ MonotonicallyIncreasingTime p now_exec + 1 / 60 := by
        have : (0 : ℚ) < 1 / 60 := by norm_num
        linarith

/-- Witness for `idle_deadline_spec` at a concrete platform, request and
pair of instants. -/
theorem idle_deadline_spec_witness :
    MonotonicallyIncreasingTime (construct 0 7).1 2000
      ≤ MonotonicallyIncreasingTime (construct 0 7).1 5000 + 1 / 60 :=
  (idle_deadline_spec (construct 0 7).1 ⟨some 7, 3⟩ 2000 5000 (by decide)
    (by decide)).2

/-- Claim C10: `CallOnBackgroundThread` discards its `expected_runtime`
hint: calls differing only in that argument return the same state and emit
the same events. -/
theorem expected_runtime_ignored (p : Platform) (task : Task)
    (e1 e2 : ExpectedRuntime) :
    CallOnBackgroundThread p task e1 = CallOnBackgroundThread p task e2 :=
  rfl

/-- Claim C1: with `disposing` true, background dispatch runs the task
synchronously, deletes it immediately, and enqueues nothing; with
`disposing` false, it pushes a request with no target isolate on the thread
pool and does not run the task synchronously. -/
theorem background_dispatch_spec (p : Platform) (task : Task)
    (ert : ExpectedRuntime) :
    (p.disposing = true →
      (CallOnBackgroundThread p task ert).2
          = [Event.runTask task, Event.deleteTask task] ∧
        (CallOnBackgroundThread p task ert).1 = p ∧
        ∀ e ∈ (CallOnBackgroundThread p task ert).2, e.isEnqueue = false) ∧
    (p.disposing = false →
      (CallOnBackgroundThread p task ert).2
          = [Event.pushPoolJob Handler.taskReq { isolate := none, task := task }] ∧
        Event.runTask task ∉ (CallOnBackgroundThread p task ert).2) := by
  constructor
  · intro hd
    simp [CallOnBackgroundThread, hd, Event.isEnqueue]
  · intro hd
    simp [CallOnBackgroundThread, hd]

/-- Witness for `background_dispatch_spec` in both branches, at concrete
platforms. -/
theorem background_dispatch_spec_witness :
    ((CallOnBackgroundThread ⟨true, none, none, some 0, some 1, 7, 0, 2⟩ 5
        ExpectedRuntime.kShortRunningTask).2
      = [Event.runTask 5, Event.deleteTask 5]) ∧
    ((CallOnBackgroundThread (construct 0 7).1 5
        ExpectedRuntime.kShortRunningTask).2
      = [Event.pushPoolJob Handler.taskReq { isolate := none, task := 5 }]) :=
  ⟨((background_dispatch_spec ⟨true, none, none, some 0, some 1, 7, 0, 2⟩ 5
      ExpectedRuntime.kShortRunningTask).1 rfl).1,
   ((background_dispatch_spec (construct 0 7).1 5
      ExpectedRuntime.kShortRunningTask).2 rfl).1⟩

/-- Claim C2: each VM-affine dispatch operation checks `disposing == false`
as a fatal assertion at dispatch time: when `disposing` is false none of
them aborts, and when `disposing` is true each aborts (modelled as `none`)
instead of queuing anything. -/
theorem foreground_assert_spec (p : Platform) (iso : Isolate) (t : Task)
    (it : IdleTask) (d : ℚ) :
    (p.disposing = false →
      (CallOnForegroundThread p iso t).isSome = true ∧
      (CallDelayedOnForegroundThread p iso t d).isSome = true ∧
      (CallIdleOnForegroundThread p iso it).isSome = true) ∧
    (p.disposing = true →
      CallOnForegroundThread p iso t = none ∧
      CallDelayedOnForegroundThread p iso t d = none ∧
      CallIdleOnForegroundThread p iso it = none) := by
  constructor
  · intro hd
    simp [CallOnForegroundThread, CallDelayedOnForegroundThread,
      CallIdleOnForegroundThread, hd]
  · intro hd
    simp [CallOnForegroundThread, CallDelayedOnForegroundThread,
      CallIdleOnForegroundThread, hd]

/-- Witness for `foreground_assert_spec` in both branches, at concrete
platforms. -/
theorem foreground_assert_spec_witness :
    (CallOnForegroundThread (construct 0 7).1 7 5).isSome = true ∧
    CallOnForegroundThread ⟨true, none, none, some 0, some 1, 7, 0, 2⟩ 7 5
      = none :=
  ⟨((foreground_assert_spec (construct 0 7).1 7 5 6 (1 / 2)).1 rfl).1,
   ((foreground_assert_spec ⟨true, none, none, some 0, some 1, 7, 0, 2⟩ 7 5 6
      (1 / 2)).2 rfl).1⟩

/-- Claim C5: the destructor sets `disposing` to true as its first action;
the frees it performs are exactly: `objc`/`java` only when their slot is
non-null (each once), then `debug` and `runtime` unconditionally; every
free happens before the isolate and V8 global state are disposed, and the
scheduler unref and the allocator delete come last. -/
theorem destructor_spec (p : Platform) :
    (destructor p).1.disposing = true ∧
    (destructor p).2.head? = some Event.setDisposing ∧
    (destructor p).2.filter Event.isFree
      = (p.objc_bundle.elim [] fun b => [Event.freeBundle (some b)])
        ++ (p.java_bundle.elim [] fun b => [Event.freeBundle (some b)])
        ++ [Event.freeBundle p.debug_bundle,
            Event.freeBundle p.runtime_bundle] ∧
    ∃ mid, (∀ e ∈ mid, e.isFree = true) ∧
      (destructor p).2
        = [Event.setDisposing, Event.lockEnter (some p.isolate)] ++ mid
          ++ [Event.lockExit (some p.isolate), Event.disposeIsolate,
              Event.v8Dispose, Event.v8Shutdown, Event.unrefScheduler,
              Event.deleteAllocator] := by
  refine ⟨rfl, ?_, ?_, ?_⟩
  · rcases p.objc_bundle with _ | b <;> rcases p.java_bundle with _ | c <;>
      simp [destructor]
  · rcases hoc : p.objc_bundle with _ | b <;>
      rcases hja : p.java_bundle with _ | c <;>
      simp [destructor, hoc, hja, Event.isFree]
  · refine ⟨(match p.objc_bundle with
        | some b => [Event.freeBundle (some b)]
        | none => [])
      ++ (match p.java_bundle with
        | some b => [Event.freeBundle (some b)]
        | none => [])
      ++ [Event.freeBundle p.debug_bundle,
          Event.freeBundle p.runtime_bundle], ?_, ?_⟩
    · intro e he
      have hfree : ∀ (o : Option Bundle) (x : Event),
          x ∈ (match o with
            | some b => [Event.freeBundle (some b)]
            | none => ([] : List Event)) → x.isFree = true := by
        rintro (_ | b) x hx
        · simp at hx
        · simp only [List.mem_singleton] at hx
          simp [hx, Event.isFree]
      rcases List.mem_append.mp he with h | h
      · rcases List.mem_append.mp h with h | h
        · exact hfree _ _ h
        · exact hfree _ _ h
      · simp only [List.mem_cons, List.not_mem_nil, or_false] at h
        rcases h with h | h <;> simp [h, Event.isFree]
    · rcases hoc : p.objc_bundle with _ | b <;>
        rcases hja : p.java_bundle with _ | c <;>
        simp [destructor, hoc, hja]

/-- Claim C6: the `objc` and `java` slots start null after construction and
construction compiles neither; a getter call on an empty slot compiles the
bundle (one compile event) and caches it; a second getter call returns the
identical cached bundle, leaves the state unchanged, and emits no events at
all, so it never recompiles. -/
theorem bundle_memoization_spec (now : Int) (iso : Isolate) (p : Platform) :
    ((construct now iso).1.objc_bundle = none ∧
     (construct now iso).1.java_bundle = none) ∧
    (∀ b, Event.compileBundle ModuleTable.objc b ∉ (construct now iso).2) ∧
    (∀ b, Event.compileBundle ModuleTable.java b ∉ (construct now iso).2) ∧
    GetObjCBundle (GetObjCBundle p).2.1
      = ((GetObjCBundle p).1, (GetObjCBundle p).2.1, []) ∧
    GetJavaBundle (GetJavaBundle p).2.1
      = ((GetJavaBundle p).1, (GetJavaBundle p).2.1, []) ∧
    (p.objc_bundle = none →
      (GetObjCBundle p).2.2
          = [Event.compileBundle ModuleTable.objc (GetObjCBundle p).1] ∧
        (GetObjCBundle p).2.1.objc_bundle = some (GetObjCBundle p).1) ∧
    (p.java_bundle = none →
      (GetJavaBundle p).2.2
          = [Event.compileBundle ModuleTable.java (GetJavaBundle p).1] ∧
        (GetJavaBundle p).2.1.java_bundle = some (GetJavaBundle p).1) := by
  refine ⟨⟨rfl, rfl⟩, ?_, ?_, ?_, ?_, ?_, ?_⟩
  · intro b
    simp [construct, InitRuntime, gum_v8_bundle_new]
  · intro b
    simp [construct, InitRuntime, gum_v8_bundle_new]
  · rcases h : p.objc_bundle with _ | b <;>
      simp [GetObjCBundle, gum_v8_bundle_new, h]
  · rcases h : p.java_bundle with _ | b <;>
      simp [GetJavaBundle, gum_v8_bundle_new, h]
  · intro h
    simp [GetObjCBundle, gum_v8_bundle_new, h]
  · intro h
    simp [GetJavaBundle, gum_v8_bundle_new, h]

/-- Witness for `bundle_memoization_spec` at a freshly constructed
platform, whose `objc` and `java` slots are empty. -/
theorem bundle_memoization_spec_witness :
    (GetObjCBundle (construct 0 7).1).2.2
      = [Event.compileBundle ModuleTable.objc
           (GetObjCBundle (construct 0 7).1).1] ∧
    (GetJavaBundle (construct 0 7).1).2.2
      = [Event.compileBundle ModuleTable.java
           (GetJavaBundle (construct 0 7).1).1] :=
  ⟨((bundle_memoization_spec 0 7 (construct 0 7).1).2.2.2.2.2.1 rfl).1,
   ((bundle_memoization_spec 0 7 (construct 0 7).1).2.2.2.2.2.2 rfl).1⟩

/-- Claim C7: delayed foreground dispatch attaches a one-shot timeout whose
interval is `delay_in_seconds * 1000` truncated to whole milliseconds, at
default priority, naming the delayed handler; the delayed handler runs the
task exactly once and returns `false` ("do not repeat") so the timer never
re-fires. -/
theorem delayed_dispatch_spec (p : Platform) (iso : Isolate) (t : Task)
    (d : ℚ) (req : TaskRequest) (hd : p.disposing = false) :
    CallDelayedOnForegroundThread p iso t d
      = some (p, [Event.attachTimeout ⌊d * 1000⌋.toNat
          G_PRIORITY_DEFAULT Handler.delayedTaskReq
          { isolate := some iso, task := t }]) ∧
    (HandleDelayedTaskRequest req).1 = false ∧
    (HandleDelayedTaskRequest req).2.countP (Event.isRunOf req.task) = 1 := by
  refine ⟨by simp [CallDelayedOnForegroundThread, hd], rfl, ?_⟩
  rcases h : req.isolate with _ | i <;>
    simp [HandleDelayedTaskRequest, HandleTaskRequest, h, List.countP_cons,
      Event.isRunOf]

/-- Witness for `delayed_dispatch_spec`: a 0.05 s delay yields a 50 ms
one-shot interval, and the handler reports "do not repeat". -/
theorem delayed_dispatch_spec_witness :
    CallDelayedOnForegroundThread (construct 0 7).1 7 5 (1 / 20)
      = some ((construct 0 7).1,
          [Event.attachTimeout 50 G_PRIORITY_DEFAULT Handler.delayedTaskReq
            { isolate := some 7, task := 5 }]) := by
  have h := (delayed_dispatch_spec (construct 0 7).1 7 5 (1 / 20)
    ⟨some 7, 5⟩ rfl).1
  have h50 : (⌊(1 / 20 : ℚ) * 1000⌋).toNat = 50 := by
    norm_num
    rfl
  rw [h, h50]

/-- Claim C8: each task-request handler run executes the task exactly once
and deletes the request exactly once; with a target isolate the run happens
inside that isolate's lock scope, without one no lock is taken. -/
theorem handle_task_request_spec (req : TaskRequest) :
    (HandleTaskRequest req).countP (Event.isRunOf req.task) = 1 ∧
    (HandleTaskRequest req).countP (Event.isDeleteOf req) = 1 ∧
    (∀ i, req.isolate = some i →
      HandleTaskRequest req
        = [Event.lockEnter (some i), Event.runTask req.task,
           Event.deleteRequest req, Event.lockExit (some i)]) ∧
    (req.isolate = none →
      HandleTaskRequest req
        = [Event.runTask req.task, Event.deleteRequest req]) := by
  refine ⟨?_, ?_, ?_, ?_⟩
  · rcases h : req.isolate with _ | i <;>
      simp [HandleTaskRequest, h, List.countP_cons, Event.isRunOf]
  · rcases h : req.isolate with _ | i <;>
      simp [HandleTaskRequest, h, List.countP_cons, Event.isDeleteOf]
  · intro i h
    simp [HandleTaskRequest, h]
  · intro h
    simp [HandleTaskRequest, h]

/-- Witness for `handle_task_request_spec` at concrete requests with and
without a target isolate. -/
theorem handle_task_request_spec_witness :
    HandleTaskRequest ⟨some 7, 5⟩
      = [Event.lockEnter (some 7), Event.runTask 5,
         Event.deleteRequest ⟨some 7, 5⟩, Event.lockExit (some 7)] ∧
    HandleTaskRequest ⟨none, 5⟩
      = [Event.runTask 5, Event.deleteRequest ⟨none, 5⟩] :=
  ⟨(handle_task_request_spec ⟨some 7, 5⟩).2.2.1 7 rfl,
   (handle_task_request_spec ⟨none, 5⟩).2.2.2 rfl⟩

/-- Claim C9: construction creates the isolate with the buffer allocator
installed, installs the fatal-error callback, creates the scheduler and the
allocator, records the clock baseline, and — inside one transient lock scope
at the end of the constructor — compiles the runtime and debug bundles, so
both slots are populated immediately after init. -/
theorem construct_spec (now : Int) (iso : Isolate) :
    (construct now iso).1.runtime_bundle.isSome = true ∧
    (construct now iso).1.debug_bundle.isSome = true ∧
    (construct now iso).1.disposing = false ∧
    (construct now iso).1.start_time = now ∧
    (construct now iso).1.isolate = iso ∧
    Event.newScheduler ∈ (construct now iso).2 ∧
    Event.newAllocator ∈ (construct now iso).2 ∧
    Event.newIsolateWithAllocator ∈ (construct now iso).2 ∧
    Event.setFatalErrorHandler ∈ (construct now iso).2 ∧
    ∃ pre rb db,
      (construct now iso).2
        = pre ++ [Event.lockEnter (some iso),
                  Event.compileBundle ModuleTable.runtime rb,
                  Event.compileBundle ModuleTable.debug db,
                  Event.lockExit (some iso)] ∧
      (construct now iso).1.runtime_bundle = some rb ∧
      (construct now iso).1.debug_bundle = some db := by
  refine ⟨rfl, rfl, rfl, rfl, rfl, ?_, ?_, ?_, ?_,
    [Event.newScheduler, Event.newAllocator, Event.v8InitPlatform,
     Event.v8Start, Event.newIsolateWithAllocator,
     Event.setFatalErrorHandler], 0, 1, ?_, rfl, rfl⟩ <;>
    simp [construct, InitRuntime, gum_v8_bundle_new]

end GumV8
